import Mathlib

/-!
Shallow embedding of the naver-search-mcp dispatch layer.

Source files embedded:
  src/index.ts             — startup credential validation, the tool-handler
                             record, createErrorResponse, and the
                             CallToolRequestSchema handler (the Dispatcher).
  src/handlers/search.handlers.ts — the per-tool handler functions, each a
                             single call into the NaverSearchClient.

The tool registries (src/tools/search.tools.ts, src/tools/datalab.tools.ts),
the datalab handlers (src/handlers/datalab.handlers.ts) and the name-to-handler
record literals are not present in the sources; where a claim needs them they
are modelled from the spec and marked as such in their doc comments.

JavaScript values flowing through the dispatcher are modelled by a JSON value
type; a thrown error is modelled by its message string (every throw site in
the embedded sources throws `new Error(message)`).
-/

/-- JSON values, the model of the JavaScript values that handlers receive and
return.  Object fields keep insertion order, as JavaScript objects do. -/
inductive Json where
  | null
  | bool (b : Bool)
  | num (n : Int)
  | str (s : String)
  | arr (elems : List Json)
  | obj (fields : List (String × Json))
deriving Repr

/-- Own-property read on a JavaScript object: first field with the key. -/
def recordGet {α : Type} (fields : List (String × α)) (k : String) : Option α :=
  match fields with
  | [] => none
  | (k', v) :: rest => if k' = k then some v else recordGet rest k

/-- Property write on a JavaScript object: an existing key keeps its position
and takes the new value; a new key is appended.  This is the semantics of a
later duplicate key in an object literal or spread. -/
def recordSet {α : Type} (fields : List (String × α)) (k : String) (v : α) :
    List (String × α) :=
  match fields with
  | [] => [(k, v)]
  | (k', v') :: rest =>
      if k' = k then (k, v) :: rest else (k', v') :: recordSet rest k v

/-- Merge of two JavaScript records, the second spread after the first:
every field of the second is assigned into the first in order, so a shared
key takes the second record's value. -/
def recordMerge {α : Type} (a b : List (String × α)) : List (String × α) :=
  b.foldl (fun acc kv => recordSet acc kv.1 kv.2) a

/-- Spread of a JSON value into an object literal after some base fields, as
in `\x7b type: "news", ...params \x7d`.  Spreading a non-object contributes no
fields; the handlers only ever spread their argument object. -/
def jsSpread (base : List (String × Json)) (j : Json) : List (String × Json) :=
  match j with
  | .obj fs => recordMerge base fs
  | _ => base

/-- Hexadecimal digit for JSON string escapes of control characters. -/
def hexDigit (n : Nat) : String :=
  if n < 10 then toString n
  else if n = 10 then "a"
  else if n = 11 then "b"
  else if n = 12 then "c"
  else if n = 13 then "d"
  else if n = 14 then "e"
  else "f"

/-- Escape of one character inside a JSON string literal, as JSON.stringify
produces it. -/
def escapeChar (c : Char) : String :=
  if c = '"' then "\\\""
  else if c = '\\' then "\\\\"
  else if c = '\n' then "\\n"
  else if c = '\r' then "\\r"
  else if c = '\t' then "\\t"
  else if c = '\x08' then "\\b"
  else if c = '\x0c' then "\\f"
  else if c.val < 0x20 then
    "\\u00" ++ hexDigit (c.toNat / 16) ++ hexDigit (c.toNat % 16)
  else String.singleton c

/-- Quoted, escaped JSON string literal. -/
def quoteString (s : String) : String :=
  "\"" ++ String.join (s.toList.map escapeChar) ++ "\""

/-- Two spaces of indentation per nesting level, the `2` argument of
`JSON.stringify(result, null, 2)` in src/index.ts. -/
def indentAt (depth : Nat) : String :=
  String.join (List.replicate depth "  ")

mutual

/-- Pretty serialization of a JSON value at a nesting depth, matching
`JSON.stringify(value, null, 2)`. -/
def stringifyAt (depth : Nat) (j : Json) : String :=
  match j with
  | .null => "null"
  | .bool b => if b then "true" else "false"
  | .num n => toString n
  | .str s => quoteString s
  | .arr [] => "[]"
  | .arr (x :: xs) =>
      "[\n" ++ indentAt (depth + 1) ++ stringifyAt (depth + 1) x ++
        stringifyArrTail (depth + 1) xs ++ "\n" ++ indentAt depth ++ "]"
  | .obj [] => "\x7b\x7d"
  | .obj ((k, v) :: fs) =>
      "\x7b\n" ++ indentAt (depth + 1) ++ quoteString k ++ ": " ++
        stringifyAt (depth + 1) v ++ stringifyObjTail (depth + 1) fs ++
        "\n" ++ indentAt depth ++ "\x7d"

/-- Serialization of the remaining elements of a non-empty array. -/
def stringifyArrTail (depth : Nat) (xs : List Json) : String :=
  match xs with
  | [] => ""
  | x :: rest =>
      ",\n" ++ indentAt depth ++ stringifyAt depth x ++
        stringifyArrTail depth rest

/-- Serialization of the remaining fields of a non-empty object. -/
def stringifyObjTail (depth : Nat) (fs : List (String × Json)) : String :=
  match fs with
  | [] => ""
  | (k, v) :: rest =>
      ",\n" ++ indentAt depth ++ quoteString k ++ ": " ++
        stringifyAt depth v ++ stringifyObjTail depth rest

end

/-- Top-level `JSON.stringify(result, null, 2)` from the success path of the
CallToolRequestSchema handler in src/index.ts. -/
def jsonStringify2 (j : Json) : String :=
  stringifyAt 0 j

example :
    jsonStringify2 (Json.obj [("items", Json.arr [])]) =
      "\x7b\n  \"items\": []\n\x7d" := by
  rfl

/-- One call into the NaverSearchClient, identified by the client method and
the parameter value passed to it.  Each handler in
src/handlers/search.handlers.ts is a single such call; `datalab` stands for
the trend-analysis client method used by the (missing) datalab handlers. -/
inductive ClientCall where
  | search (params : Json)
  | searchLocal (params : Json)
  | searchAcademic (params : Json)
  | datalab (params : Json)
deriving Repr

/-- Behaviour of the Remote Client during one invocation: the answer it gives
to a client call, either a result value or a thrown error's message. -/
def Client : Type :=
  ClientCall → Except String Json

/-- handleAcademicSearch from src/handlers/search.handlers.ts:
`return client.searchAcademic(params)`. -/
def handleAcademicSearch (params : Json) : ClientCall :=
  .searchAcademic params

/-- handleBookSearch: `return client.search(\x7b type: "book", ...params \x7d)`. -/
def handleBookSearch (params : Json) : ClientCall :=
  .search (Json.obj (jsSpread [("type", Json.str "book")] params))

/-- handleEncycSearch: `return client.search(\x7b type: "encyc", ...params \x7d)`. -/
def handleEncycSearch (params : Json) : ClientCall :=
  .search (Json.obj (jsSpread [("type", Json.str "encyc")] params))

/-- handleImageSearch: `return client.search(\x7b type: "image", ...params \x7d)`. -/
def handleImageSearch (params : Json) : ClientCall :=
  .search (Json.obj (jsSpread [("type", Json.str "image")] params))

/-- handleKinSearch: `return client.search(\x7b type: "kin", ...params \x7d)`. -/
def handleKinSearch (params : Json) : ClientCall :=
  .search (Json.obj (jsSpread [("type", Json.str "kin")] params))

/-- handleLocalSearch: `return client.searchLocal(params)`. -/
def handleLocalSearch (params : Json) : ClientCall :=
  .searchLocal params

/-- handleNewsSearch: `return client.search(\x7b type: "news", ...params \x7d)`. -/
def handleNewsSearch (params : Json) : ClientCall :=
  .search (Json.obj (jsSpread [("type", Json.str "news")] params))

/-- handleBlogSearch: `return client.search(\x7b type: "blog", ...params \x7d)`. -/
def handleBlogSearch (params : Json) : ClientCall :=
  .search (Json.obj (jsSpread [("type", Json.str "blog")] params))

/-- handleShopSearch: `return client.search(\x7b type: "shop", ...params \x7d)`. -/
def handleShopSearch (params : Json) : ClientCall :=
  .search (Json.obj (jsSpread [("type", Json.str "shop")] params))

/-- handleCafeArticleSearch:
`return client.search(\x7b type: "cafearticle", ...params \x7d)`. -/
def handleCafeArticleSearch (params : Json) : ClientCall :=
  .search (Json.obj (jsSpread [("type", Json.str "cafearticle")] params))

/-- handleWebKrSearch:
`return await client.search(\x7b type: "webkr", ...args \x7d)`. -/
def handleWebKrSearch (args : Json) : ClientCall :=
  .search (Json.obj (jsSpread [("type", Json.str "webkr")] args))

/-- Modelled from the spec: the datalab handlers
(src/handlers/datalab.handlers.ts is not among the sources).  The spec says
only that trend-analysis endpoints are exposed the same way, each handler one
pass-through call to the Remote Client. -/
def handleDatalabTrend (params : Json) : ClientCall :=
  .datalab params

/-- Modelled from the spec: the `searchToolHandlers` record exported by
src/handlers/search.handlers.ts (the record literal is not among the sources;
only the individual handler functions are).  Names follow the spec's
scenarios, which use "news-search" and "local-search", extended uniformly to
the remaining exported handlers. -/
def searchToolHandlers : List (String × (Json → ClientCall)) :=
  [("academic-search", handleAcademicSearch),
   ("book-search", handleBookSearch),
   ("encyc-search", handleEncycSearch),
   ("image-search", handleImageSearch),
   ("kin-search", handleKinSearch),
   ("local-search", handleLocalSearch),
   ("news-search", handleNewsSearch),
   ("blog-search", handleBlogSearch),
   ("shop-search", handleShopSearch),
   ("cafearticle-search", handleCafeArticleSearch),
   ("webkr-search", handleWebKrSearch)]

/-- Modelled from the spec: the `datalabToolHandlers` record
(src/handlers/datalab.handlers.ts is not among the sources). -/
def datalabToolHandlers : List (String × (Json → ClientCall)) :=
  [("datalab-trend", handleDatalabTrend)]

/-- The `toolHandlers` record from src/index.ts: the spread of
`searchToolHandlers` then `datalabToolHandlers` into one object literal. -/
def toolHandlers : List (String × (Json → ClientCall)) :=
  recordMerge searchToolHandlers datalabToolHandlers

/-- Tool descriptor as in the spec's data model: name, description and a
parameter schema advertised to callers. -/
structure ToolDescriptor where
  name : String
  description : String
  parameterSchema : Json

/-- Modelled from the spec: the Tool Registry entries of
src/tools/search.tools.ts (not among the sources).  The spec's invariant ties
its names to the Handler Map; descriptions and schemas are opaque here. -/
def searchTools : List ToolDescriptor :=
  searchToolHandlers.map (fun kv =>
    { name := kv.1, description := "", parameterSchema := Json.obj [] })

/-- Modelled from the spec: the Tool Registry entries of
src/tools/datalab.tools.ts (not among the sources). -/
def datalabTools : List ToolDescriptor :=
  datalabToolHandlers.map (fun kv =>
    { name := kv.1, description := "", parameterSchema := Json.obj [] })

/-- Response list of the ListToolsRequestSchema handler in src/index.ts:
`[...searchTools, ...datalabTools]`. -/
def listedTools : List ToolDescriptor :=
  searchTools ++ datalabTools

/-- One content item of a response envelope. -/
structure ContentItem where
  type : String
  text : String
deriving Repr, DecidableEq

/-- Invocation response envelope.  `isError` is an optional field: the error
path of src/index.ts sets it to `true`, the success path omits it. -/
structure InvocationResponse where
  content : List ContentItem
  isError : Option Bool
deriving Repr, DecidableEq

/-- createErrorResponse from src/index.ts, applied to an error with the given
message: `\x7b content: [\x7b type: "text", text: "Error: " + message \x7d],
isError: true \x7d`. -/
def createErrorResponse (message : String) : InvocationResponse :=
  { content := [⟨"text", "Error: " ++ message⟩], isError := some true }

/-- Success return of the CallToolRequestSchema handler in src/index.ts:
`\x7b content: [\x7b type: "text", text: JSON.stringify(result, null, 2) \x7d] \x7d`
— note no `isError` field. -/
def successResponse (result : Json) : InvocationResponse :=
  { content := [⟨"text", jsonStringify2 result⟩], isError := none }

/-- Body of the `try` block of the CallToolRequestSchema handler: the
missing-arguments check, the handler lookup, and the awaited handler call
(which is one Remote Client call).  An `Except.error` is a thrown error
reaching the surrounding `catch`. -/
def callToolCore (client : Client) (name : String) (args : Option Json) :
    Except String Json :=
  match args with
  | none => .error "Arguments are required"
  | some a =>
      match recordGet toolHandlers name with
      | none => .error ("Unknown tool: " ++ name)
      | some handler => client (handler a)

/-- The Dispatcher's invoke operation: the CallToolRequestSchema handler of
src/index.ts, try block plus catch-all converting any thrown error with
createErrorResponse. -/
def invoke (client : Client) (name : String) (args : Option Json) :
    InvocationResponse :=
  match callToolCore client name args with
  | .ok result => successResponse result
  | .error e => createErrorResponse e

/-- Process environment at startup: the two credential variables, each absent
or a (possibly empty) string. -/
structure Env where
  NAVER_CLIENT_ID : Option String
  NAVER_CLIENT_SECRET : Option String

/-- Truthiness of `process.env.X` in the startup check `!NAVER_CLIENT_ID`:
an absent variable and an empty string are both falsy. -/
def envFalsy (v : Option String) : Bool :=
  match v with
  | none => true
  | some s => s = ""

/-- Outcome of the top-level startup code of src/index.ts: either
`process.exit(1)` after the diagnostic, or the Remote Client initialized with
the credential pair. -/
inductive StartupResult where
  | fatalExit (code : Nat) (diagnostic : String)
  | initialized (clientId clientSecret : String)
deriving Repr, DecidableEq

/-- Startup credential validation from src/index.ts: exit 1 with the
diagnostic when either variable is falsy, otherwise
`client.initialize(\x7b clientId, clientSecret \x7d)`. -/
def startup (env : Env) : StartupResult :=
  if envFalsy env.NAVER_CLIENT_ID || envFalsy env.NAVER_CLIENT_SECRET then
    .fatalExit 1
      "Error: NAVER_CLIENT_ID and NAVER_CLIENT_SECRET environment variables are required"
  else
    .initialized (env.NAVER_CLIENT_ID.getD "") (env.NAVER_CLIENT_SECRET.getD "")

/-- Containment test for the "message contains ..." properties: true when the
pattern occurs as a contiguous substring, checked character-wise. -/
def charsContain (pat : List Char) : List Char → Bool
  | [] => pat.isEmpty
  | c :: rest => pat.isPrefixOf (c :: rest) || charsContain pat rest

/-- Substring containment on strings. -/
def strContains (s pat : String) : Bool :=
  charsContain pat.toList s.toList

/-- Stub Remote Client answering every call with `\x7b items: [] \x7d`. -/
def stubEmptyItemsClient : Client :=
  fun _ => .ok (Json.obj [("items", Json.arr [])])

/-- Stub Remote Client throwing `Error("rate limited")` on every call. -/
def stubRateLimitedClient : Client :=
  fun _ => .error "rate limited"

/-- C1: for every tool name and every arguments value, whatever the Remote
Client does, `invoke` returns an InvocationResponse — either the success
envelope of some result, or an error envelope with `isError: true`; no
exception escapes the Dispatcher boundary (the catch-all of the
CallToolRequestSchema handler converts every thrown error with
createErrorResponse). -/
theorem claim_C1 (client : Client) (name : String) (args : Option Json) :
    (∃ r, invoke client name args = successResponse r) ∨
    (∃ m, invoke client name args = createErrorResponse m ∧
      (invoke client name args).isError = some true) := by
  unfold invoke
  cases callToolCore client name args with
  | ok r => exact Or.inl ⟨r, rfl⟩
  | error e => exact Or.inr ⟨e, rfl, rfl⟩

/-- C2 counterexample: with a stubbed Remote Client returning
`\x7b items: [] \x7d`, invoking "news-search" with `\x7b query: "test" \x7d`
does NOT produce a response carrying `isError: false` — the success path of
src/index.ts returns only `content` and omits the `isError` field. -/
theorem claim_C2_counterexample :
    invoke stubEmptyItemsClient "news-search"
        (some (Json.obj [("query", Json.str "test")])) ≠
      { content := [⟨"text", "\x7b\n  \"items\": []\n\x7d"⟩],
        isError := some false } := by
  intro h
  exact Option.noConfusion (congrArg InvocationResponse.isError h)

/-- C2 amended: for every invocation whose handler call resolves with result
r, the dispatcher returns `\x7b content: [\x7b type: "text", text: the
two-space pretty JSON serialization of r \x7d] \x7d` with the isError field
omitted (not set to false). -/
theorem claim_C2_amended (client : Client) (name : String) (a r : Json)
    (handler : Json → ClientCall)
    (hlook : recordGet toolHandlers name = some handler)
    (hres : client (handler a) = .ok r) :
    invoke client name (some a) =
      { content := [⟨"text", jsonStringify2 r⟩], isError := none } := by
  unfold invoke callToolCore
  rw [hlook]
  show (match client (handler a) with
    | Except.ok result => successResponse result
    | Except.error e => createErrorResponse e) = _
  rw [hres]
  rfl

/-- C2 witness: the amended statement at the stubbed client returning
`\x7b items: [] \x7d`, giving exactly the serialized text of the spec's
scenario. -/
theorem claim_C2_amended_witness :
    invoke stubEmptyItemsClient "news-search"
        (some (Json.obj [("query", Json.str "test")])) =
      { content := [⟨"text", "\x7b\n  \"items\": []\n\x7d"⟩],
        isError := none } :=
  claim_C2_amended stubEmptyItemsClient "news-search"
    (Json.obj [("query", Json.str "test")])
    (Json.obj [("items", Json.arr [])]) handleNewsSearch rfl rfl

/-- C3 counterexample: "nonexistent-tool" has no Handler Map entry, yet with
null/absent arguments the missing-arguments check of src/index.ts fires
first, so the message is "Error: Arguments are required" and does not
contain "Unknown tool". -/
theorem claim_C3_counterexample :
    recordGet toolHandlers "nonexistent-tool" = none ∧
    invoke stubEmptyItemsClient "nonexistent-tool" none =
      createErrorResponse "Arguments are required" ∧
    strContains "Error: Arguments are required" "Unknown tool" = false := by
  refine ⟨rfl, rfl, by decide⟩

/-- C3 amended: for every toolName with no Handler Map entry and every
non-null arguments value, invoke returns an error envelope whose message
contains "Unknown tool"; with null/absent arguments the missing-arguments
check takes precedence. -/
theorem claim_C3_amended (client : Client) (name : String) (a : Json)
    (h : recordGet toolHandlers name = none) :
    invoke client name (some a) =
      createErrorResponse ("Unknown tool: " ++ name) ∧
    (invoke client name (some a)).isError = some true ∧
    strContains ("Error: " ++ ("Unknown tool: " ++ name)) "Unknown tool" =
      true := by
  unfold invoke callToolCore
  rw [h]
  exact ⟨rfl, rfl, rfl⟩

/-- C3 witness: the amended statement at the name "nonexistent-tool" of the
spec's scenario, with empty-object arguments. -/
theorem claim_C3_amended_witness :
    invoke stubEmptyItemsClient "nonexistent-tool" (some (Json.obj [])) =
      createErrorResponse "Unknown tool: nonexistent-tool" ∧
    strContains "Error: Unknown tool: nonexistent-tool" "Unknown tool" =
      true :=
  ⟨(claim_C3_amended stubEmptyItemsClient "nonexistent-tool"
      (Json.obj []) rfl).1,
   (claim_C3_amended stubEmptyItemsClient "nonexistent-tool"
      (Json.obj []) rfl).2.2⟩

/-- C4: with null/absent arguments, invoke returns the "Arguments are
required" error envelope for every tool name, and the response does not
depend on the Remote Client at all — the check precedes the handler lookup
and the handler call, so no handler and no Remote Client call happens. -/
theorem claim_C4 (client : Client) (name : String) :
    invoke client name none = createErrorResponse "Arguments are required" ∧
    (invoke client name none).isError = some true ∧
    strContains "Error: Arguments are required" "Arguments are required" =
      true ∧
    ∀ other : Client, invoke other name none = invoke client name none := by
  exact ⟨rfl, rfl, by decide, fun _ => rfl⟩

/-- C5: an error thrown inside a handler (i.e. surfaced by the Remote Client)
propagates unmodified to the Dispatcher — the handlers in
src/handlers/search.handlers.ts have no local error handling — and the
Dispatcher answers with `\x7b isError: true, content: [\x7b type: "text",
text: "Error: " + message \x7d] \x7d`. -/
theorem claim_C5 (client : Client) (name : String) (a : Json)
    (handler : Json → ClientCall) (e : String)
    (hlook : recordGet toolHandlers name = some handler)
    (hthrow : client (handler a) = .error e) :
    invoke client name (some a) =
      { content := [⟨"text", "Error: " ++ e⟩], isError := some true } := by
  unfold invoke callToolCore
  rw [hlook]
  show (match client (handler a) with
    | Except.ok result => successResponse result
    | Except.error e => createErrorResponse e) = _
  rw [hthrow]
  rfl

/-- C5 witness: the spec's scenario — a stubbed Remote Client throwing
`Error("rate limited")` yields the text "Error: rate limited". -/
theorem claim_C5_witness :
    invoke stubRateLimitedClient "news-search"
        (some (Json.obj [("query", Json.str "test")])) =
      { content := [⟨"text", "Error: rate limited"⟩], isError := some true } :=
  claim_C5 stubRateLimitedClient "news-search"
    (Json.obj [("query", Json.str "test")]) handleNewsSearch "rate limited"
    rfl rfl

/-- C6: invoking "news-search" with `\x7b query: "test" \x7d` resolves to
handleNewsSearch, which issues exactly the one client call
`search(\x7b type: "news", query: "test" \x7d)`, and the invocation's outcome
is determined by the Remote Client's answer to exactly that call, the result
passed through unchanged into the success envelope. -/
theorem claim_C6 (client : Client) :
    recordGet toolHandlers "news-search" = some handleNewsSearch ∧
    handleNewsSearch (Json.obj [("query", Json.str "test")]) =
      ClientCall.search
        (Json.obj [("type", Json.str "news"), ("query", Json.str "test")]) ∧
    invoke client "news-search" (some (Json.obj [("query", Json.str "test")])) =
      (match client (ClientCall.search
          (Json.obj [("type", Json.str "news"), ("query", Json.str "test")])) with
        | Except.ok r => successResponse r
        | Except.error e => createErrorResponse e) := by
  exact ⟨rfl, rfl, rfl⟩

/-- C7: invoking "local-search" with `\x7b query: "cafe" \x7d` resolves to
handleLocalSearch, which issues the type-specific call
`searchLocal(\x7b query: "cafe" \x7d)` and never the generic `search`. -/
theorem claim_C7 :
    recordGet toolHandlers "local-search" = some handleLocalSearch ∧
    handleLocalSearch (Json.obj [("query", Json.str "cafe")]) =
      ClientCall.searchLocal (Json.obj [("query", Json.str "cafe")]) ∧
    ∀ p : Json,
      handleLocalSearch (Json.obj [("query", Json.str "cafe")]) ≠
        ClientCall.search p := by
  refine ⟨rfl, rfl, fun p h => ClientCall.noConfusion h⟩

/-- C8: the names advertised by the list-tools handler (the Tool Registry)
are exactly the keys of the `toolHandlers` record, in fact as equal lists;
both are plain top-level constants, fixed at startup and never mutated. -/
theorem claim_C8 :
    listedTools.map ToolDescriptor.name = toolHandlers.map Prod.fst ∧
    ∀ n : String,
      n ∈ listedTools.map ToolDescriptor.name ↔ n ∈ toolHandlers.map Prod.fst := by
  exact ⟨rfl, fun _ => Iff.rfl⟩

/-- C9 counterexample: with NAVER_CLIENT_ID present in the environment but
empty (and a non-empty secret), the startup check `!NAVER_CLIENT_ID` of
src/index.ts still exits fatally — presence of both credentials does not
suffice for initialization. -/
theorem claim_C9_counterexample :
    startup ⟨some "", some "secret"⟩ =
      StartupResult.fatalExit 1
        "Error: NAVER_CLIENT_ID and NAVER_CLIENT_SECRET environment variables are required" ∧
    ∀ idv sv : String,
      startup ⟨some "", some "secret"⟩ ≠ StartupResult.initialized idv sv := by
  refine ⟨rfl, fun idv sv h => StartupResult.noConfusion h⟩

/-- C9 amended: if either credential variable is absent or empty (falsy),
startup exits with code 1 and the diagnostic before anything is served; if
both are present and non-empty, the Remote Client is initialized with exactly
that credential pair and no fatal exit occurs. -/
theorem claim_C9_amended (env : Env) :
    ((envFalsy env.NAVER_CLIENT_ID || envFalsy env.NAVER_CLIENT_SECRET) = true →
      startup env =
        StartupResult.fatalExit 1
          "Error: NAVER_CLIENT_ID and NAVER_CLIENT_SECRET environment variables are required") ∧
    (∀ idv sv : String, env.NAVER_CLIENT_ID = some idv →
      env.NAVER_CLIENT_SECRET = some sv → idv ≠ "" → sv ≠ "" →
      startup env = StartupResult.initialized idv sv) := by
  constructor
  · intro h
    simp [startup, h]
  · intro idv sv hid hsv h1 h2
    simp [startup, hid, hsv, envFalsy, h1, h2]

/-- C9 witness: the amended statement at an absent identifier (fatal exit)
and at the concrete pair ("id", "secret") (initialized with that pair). -/
theorem claim_C9_amended_witness :
    startup ⟨none, some "secret"⟩ =
      StartupResult.fatalExit 1
        "Error: NAVER_CLIENT_ID and NAVER_CLIENT_SECRET environment variables are required" ∧
    startup ⟨some "id", some "secret"⟩ =
      StartupResult.initialized "id" "secret" :=
  ⟨(claim_C9_amended ⟨none, some "secret"⟩).1 rfl,
   (claim_C9_amended ⟨some "id", some "secret"⟩).2 "id" "secret" rfl rfl
     (by decide) (by decide)⟩

/-- C10: for each of the nine handlers that spread the caller's arguments
after an injected type tag, a caller-supplied "type" field wins over the
injected tag (JavaScript spread: a later duplicate key keeps the first
occurrence's position but takes the last occurrence's value): with arguments
`\x7b query: q, type: t \x7d` every one of them calls the generic search with
`\x7b type: t, query: q \x7d`. -/
theorem claim_C10 (q t : Json) :
    handleBookSearch (Json.obj [("query", q), ("type", t)]) =
      ClientCall.search (Json.obj [("type", t), ("query", q)]) ∧
    handleEncycSearch (Json.obj [("query", q), ("type", t)]) =
      ClientCall.search (Json.obj [("type", t), ("query", q)]) ∧
    handleImageSearch (Json.obj [("query", q), ("type", t)]) =
      ClientCall.search (Json.obj [("type", t), ("query", q)]) ∧
    handleKinSearch (Json.obj [("query", q), ("type", t)]) =
      ClientCall.search (Json.obj [("type", t), ("query", q)]) ∧
    handleNewsSearch (Json.obj [("query", q), ("type", t)]) =
      ClientCall.search (Json.obj [("type", t), ("query", q)]) ∧
    handleBlogSearch (Json.obj [("query", q), ("type", t)]) =
      ClientCall.search (Json.obj [("type", t), ("query", q)]) ∧
    handleShopSearch (Json.obj [("query", q), ("type", t)]) =
      ClientCall.search (Json.obj [("type", t), ("query", q)]) ∧
    handleCafeArticleSearch (Json.obj [("query", q), ("type", t)]) =
      ClientCall.search (Json.obj [("type", t), ("query", q)]) ∧
    handleWebKrSearch (Json.obj [("query", q), ("type", t)]) =
      ClientCall.search (Json.obj [("type", t), ("query", q)]) := by
  exact ⟨rfl, rfl, rfl, rfl, rfl, rfl, rfl, rfl, rfl⟩
